import Mathlib

/-!
Verification of the ikigai validation layer.

This file gives a shallow embedding of the pure validation functions of the
repository (`src/server/tasks.ts`, `src/server/goals.ts`, `src/server/focus.ts`,
`src/server/areas.ts`, `src/server/signals.ts`, `src/lib/db-errors.ts`,
`src/lib/utils.ts`) and proves properties about them.

Modelling conventions:
* A TypeScript value of type `string | null | undefined` is modelled by `JStr`.
* A JS object field that may be absent is modelled by `Option`: `none` means
  the key is absent (or carries `undefined`), `some v` means the key is
  present with value `v`; a present-but-`null` string field is
  `some (none : Option String)`.
* A `Date` holding a UTC-midnight instant is modelled by its day number
  (days since 1970-01-01, the instant being `days * 86400000` ms).
* JS `number` is modelled by `NumV` (`ℚ` for finite doubles; every finite
  double is rational, and the arithmetic the code performs on them —
  comparison with integers, multiplication by 4, `Math.round`,
  `Number.isInteger` — is exact on doubles, so `ℚ` is faithful).
* The process-local timezone that `Date.prototype.getDay` consults is an
  explicit parameter: an offset `tzOff` in minutes from UTC (the offset the
  zone applies at the instant in question).
-/

namespace Ikigai

/-- `string | null | undefined` as handled by the validators' `trimField`. -/
inductive JStr where
  | undef
  | nullV
  | str (s : String)
deriving DecidableEq, Repr

/-- The characters JS `String.prototype.trim` strips: WhiteSpace and
LineTerminator code points (the rarely-seen `Zs` space separators beyond
NBSP are omitted; no input in this development contains them). -/
def isJsWhitespace (c : Char) : Bool :=
  c = ' ' || c = '\t' || c = '\n' || c = '\r' || c = '\x0b' || c = '\x0c' ||
  c = '\u00A0' || c = '\u2028' || c = '\u2029' || c = '\uFEFF'

/-- JS `s.trim()`. (Implemented over the character list so that it reduces
definitionally; Lean's own `String.trim` is byte-position based.) -/
def jsTrim (s : String) : String :=
  String.mk (((s.data.dropWhile isJsWhitespace).reverse.dropWhile isJsWhitespace).reverse)

/-- Validation result: `{ok: true, data}` or `{ok: false, error}`.
Models the `{ ok, data?, error? }` records the validators return. -/
inductive VRes (α : Type) where
  | ok (data : α)
  | err (msg : String)
deriving DecidableEq, Repr

def VRes.isOk {α : Type} : VRes α → Bool
  | .ok _ => true
  | .err _ => false

def VRes.getD {α : Type} : VRes α → α → α
  | .ok a, _ => a
  | .err _, d => d

def VRes.toOption {α : Type} : VRes α → Option α
  | .ok a => some a
  | .err _ => none

def VRes.errMsg {α : Type} : VRes α → Option String
  | .ok _ => none
  | .err e => some e

/-- The validators' shared helper
`trimField(value) = value == null ? null : (value.trim() || null)`:
`undefined` and `null` give `null`; otherwise trim, and an empty trimmed
string gives `null`. -/
def trimFieldJ : JStr → Option String
  | .undef => none
  | .nullV => none
  | .str s => if jsTrim s = "" then none else some (jsTrim s)

/-- Proleptic-Gregorian leap-year rule, as used by JS `Date` (UTC). -/
def isLeap (y : Nat) : Bool :=
  y % 4 = 0 && (y % 100 ≠ 0 || y % 400 = 0)

def daysInMonth (y m : Nat) : Nat :=
  if m = 1 || m = 3 || m = 5 || m = 7 || m = 8 || m = 10 || m = 12 then 31
  else if m = 4 || m = 6 || m = 9 || m = 11 then 30
  else if m = 2 then (if isLeap y then 29 else 28)
  else 0

/-- Day number (days since 1970-01-01) of the Gregorian date `y-m-d`,
for `0 ≤ y ≤ 9999`. Standard civil-from-days arithmetic; the year is
shifted by +400 (exactly 146097 days) so all intermediate values are `Nat`. -/
def daysFromCivil (y m d : Nat) : Int :=
  let y := y + 400
  let yy := if m ≤ 2 then y - 1 else y
  let era := yy / 400
  let yoe := yy % 400
  let mp := (m + 9) % 12
  let doy := (153 * mp + 2) / 5 + d - 1
  let doe := yoe * 365 + yoe / 4 - yoe / 100 + doy
  (era * 146097 + doe : Int) - 146097 - 719468

/-- UTC weekday of a day number, JS convention: 0 = Sunday … 6 = Saturday
(1970-01-01 was a Thursday). -/
def weekdayOfDays (d : Int) : Int :=
  Int.emod (d + 4) 7

/-- What JS `getDay()` returns for the instant `days * 86400000` ms when the
process-local timezone applies an offset of `tzOff` minutes at that instant:
the weekday of the local calendar day containing the instant. -/
def jsLocalWeekday (tzOff : Int) (days : Int) : Int :=
  weekdayOfDays (Int.fdiv (days * 1440 + tzOff) 1440)

/-- Exact match against `/^\d{4}-\d{2}-\d{2}$/`. -/
def matchesDateFormat (s : String) : Bool :=
  match s.toList with
  | [y1, y2, y3, y4, h1, m1, m2, h2, d1, d2] =>
      y1.isDigit && y2.isDigit && y3.isDigit && y4.isDigit && h1 = '-' &&
      m1.isDigit && m2.isDigit && h2 = '-' && d1.isDigit && d2.isDigit
  | _ => false

def digitVal (c : Char) : Nat := c.toNat - '0'.toNat

/-- The combined effect of
`new Date(s + 'T00:00:00.000Z')` + `isNaN` check + `toISOString()` round-trip
comparison, applied to a string already known (or checked here) to match
`\d{4}-\d{2}-\d{2}`: the pipeline succeeds exactly when the string denotes a
real proleptic-Gregorian calendar date (month 1–12, day within the month's
length), and then yields the UTC-midnight instant of that date. Impossible
dates (month 0/13, day 0, 2025-02-30, …) make `Date` parsing return
`Invalid Date` or break the round-trip; either way the caller takes the same
failure branch. -/
def dateParse? (s : String) : Option Int :=
  if matchesDateFormat s then
    match s.toList with
    | [y1, y2, y3, y4, _, m1, m2, _, d1, d2] =>
        let y := digitVal y1 * 1000 + digitVal y2 * 100 + digitVal y3 * 10 + digitVal y4
        let m := digitVal m1 * 10 + digitVal m2
        let d := digitVal d1 * 10 + digitVal d2
        if 1 ≤ m && m ≤ 12 && 1 ≤ d && d ≤ daysInMonth y m then
          some (daysFromCivil y m d)
        else none
    | _ => none
  else none

/-- `validateWeekStart` from `src/server/tasks.ts`.
`tzOff` is the process-local UTC offset in minutes consulted by
`parsedDate.getDay()`. The `ok` payload is the day number of the
UTC-midnight instant `new Date(trimmed + 'T00:00:00.000Z')`. -/
def validateWeekStart (tzOff : Int) (weekStartStr : Option String) : VRes Int :=
  match weekStartStr with
  | none => .err "Week start date is required"
  | some s =>
    if jsTrim s = "" then .err "Week start date is required"
    else
      let t := jsTrim s
      match dateParse? t with
      | none => .err "Week start must be in YYYY-MM-DD format"
      | some days =>
        if jsLocalWeekday tzOff days ≠ 1 then .err "Week start must be a Monday"
        else .ok days

/-! ## UUIDs and linked goals (`src/server/focus.ts`) -/

def isHexDigit (c : Char) : Bool :=
  c.isDigit || ('a' ≤ c && c ≤ 'f') || ('A' ≤ c && c ≤ 'F')

/-- `isValidUUID` from `src/server/focus.ts`: the regex
`/^[0-9a-f]{8}-[0-9a-f]{4}-4[0-9a-f]{3}-[89ab][0-9a-f]{3}-[0-9a-f]{12}$/i`
(8-4-4-4-12 hex with a literal `4` opening the third group and one of
`8,9,a,b` — case-insensitively — opening the fourth). -/
def isValidUUID (s : String) : Bool :=
  let cs := s.data
  cs.length = 36 &&
  (List.range 36).all fun i =>
    let c := cs.getD i ' '
    if i = 8 || i = 13 || i = 18 || i = 23 then c = '-'
    else if i = 14 then c = '4'
    else if i = 19 then c = '8' || c = '9' || c = 'a' || c = 'b' || c = 'A' || c = 'B'
    else isHexDigit c

/-- One element of the runtime array handed to `validateLinkedGoals`:
a string or some non-string JSON value. -/
inductive LGItem where
  | str (s : String)
  | nonStr
deriving DecidableEq, Repr

/-- The runtime value of the `goalIds` argument of `validateLinkedGoals`:
`falsy` covers `undefined`/`null` (caught by the function's `!goalIds`
guard), `notArr` a truthy non-array, `arr` an actual array. -/
inductive LGInput where
  | falsy
  | notArr
  | arr (items : List LGItem)
deriving DecidableEq, Repr

/-- The `for (const id of goalIds)` loop of `validateLinkedGoals`: per element,
string check, UUID check on the trimmed value, then duplicate check against
the already-accepted ids (`seenIds` and `cleanedIds` hold the same ids). -/
def lgLoop : List LGItem → List String → VRes (List String)
  | [], acc => .ok acc
  | .nonStr :: _, _ => .err "All goal IDs must be valid UUIDs"
  | .str s :: rest, acc =>
      let cleanId := jsTrim s
      if !isValidUUID cleanId then .err "All goal IDs must be valid UUIDs"
      else if acc.contains cleanId then .err "Can't link the same goal multiple times"
      else lgLoop rest (acc ++ [cleanId])

/-- `validateLinkedGoals` from `src/server/focus.ts`. -/
def validateLinkedGoals : LGInput → VRes (List String)
  | .falsy => .ok []
  | .notArr => .err "All goal IDs must be valid UUIDs"
  | .arr items =>
      if items.length > 3 then .err "Can't link more than 3 goals"
      else lgLoop items []

/-! ## Shared field-check helpers

Each validator is a chain of early `return {ok:false, error}` statements
followed by construction of the `data` record. The embedding splits that
into a first-error function (`…Error?`, `none` when every check passes, the
checks in the source's order) and a total data-construction function
(`…DataOf`); the validator returns `.err` on the first error and otherwise
`.ok` of the constructed data, exactly like the source's early returns. -/

/-- The `title`/`name` block:
`if (!partial || input.title !== undefined) { if (!title) …; if (title.length > N) … }`.
(JS `.length` counts UTF-16 units, `String.length` code points; they agree on
every message-relevant plane-0 string.) -/
def titleError? (pt : Bool) (v : JStr) (maxLen : Nat) (emptyMsg longMsg : String) :
    Option String :=
  let t := trimFieldJ v
  if !pt || v != JStr.undef then
    if t.isNone then some emptyMsg
    else if (t.getD "").length > maxLen then some longMsg
    else none
  else none

/-- The optional-text block (Goal.description, LifeArea.vision/strategy):
`if (input.x !== undefined && input.x !== null && x === null) …` then
`if (x && x.length > N) …`. -/
def optTextError? (v : JStr) (maxLen : Nat) (emptyMsg longMsg : String) :
    Option String :=
  let t := trimFieldJ v
  if v != JStr.undef && v != JStr.nullV && t.isNone then some emptyMsg
  else if t.isSome && (t.getD "").length > maxLen then some longMsg
  else none

/-- The enum block (Goal.horizon/status):
`if (!partial || input.x !== undefined) { if (!input.x || !VALID.includes(input.x)) … }`. -/
def enumError? (pt : Bool) (v : Option String) (valid : List String) (msg : String) :
    Option String :=
  if !pt || v.isSome then
    match v with
    | none => some msg
    | some s => if s = "" || !valid.contains s then some msg else none
  else none

/-- The optional-date block (Goal.targetDate): absent/`null`/blank pass as
`null`; otherwise format regex + real-date round-trip, one shared message. -/
def optDateError? (v : JStr) (msg : String) : Option String :=
  match v with
  | .undef => none
  | .nullV => none
  | .str s =>
      let t := jsTrim s
      if t = "" then none
      else if (dateParse? t).isNone then some msg else none

/-- Value produced by the optional-date block when it does not error. -/
def optDateVal (v : JStr) : Option Int :=
  match v with
  | .undef => none
  | .nullV => none
  | .str s =>
      let t := jsTrim s
      if t = "" then none else dateParse? t

/-- The `goalId`/`lifeAreaId` block: `null`/`''`/whitespace-only normalize to
`null`, any other string is trimmed; it can never fail. -/
def processGoalId : JStr → Option String
  | .undef => none
  | .nullV => none
  | .str s => if jsTrim s = "" then none else some (jsTrim s)

/-- The `weekStart` block: `if (!partial || input.weekStart !== undefined)`
run `validateWeekStart` and propagate its error. -/
def wsError? (tzOff : Int) (pt : Bool) (ws : Option String) : Option String :=
  if !pt || ws.isSome then (validateWeekStart tzOff ws).errMsg else none

/-- The `weekStart` value kept in `data` (present exactly when the block ran
and succeeded). -/
def wsVal (tzOff : Int) (pt : Bool) (ws : Option String) : Option Int :=
  if !pt || ws.isSome then (validateWeekStart tzOff ws).toOption else none

/-! ## WeeklyTask (`src/server/tasks.ts`) -/

/-- Runtime value of one day-flag field: `undefined`, `null`, a boolean, or
any other JSON value. -/
inductive DayV where
  | undef
  | nullV
  | boolV (b : Bool)
  | nonBool
deriving DecidableEq, Repr

structure TaskInput where
  title : JStr := .undef
  weekStart : Option String := none
  monday : DayV := .undef
  tuesday : DayV := .undef
  wednesday : DayV := .undef
  thursday : DayV := .undef
  friday : DayV := .undef
  saturday : DayV := .undef
  sunday : DayV := .undef
  goalId : JStr := .undef
deriving DecidableEq, Repr

/-- The `data` object `validateWeeklyTaskInput` returns: each field `none`
when the key is absent; `title`/`goalId` carry a further `Option` because
their value may be `null`. -/
structure TaskData where
  title : Option (Option String)
  weekStart : Option Int
  monday : Option Bool
  tuesday : Option Bool
  wednesday : Option Bool
  thursday : Option Bool
  friday : Option Bool
  saturday : Option Bool
  sunday : Option Bool
  goalId : Option (Option String)
deriving DecidableEq, Repr

/-- One day flag of the `for (const day of days)` loop:
`if (!partial || input[day] !== undefined)` then absent/`null` ⇒
"`<Day>` is required", non-boolean ⇒ "`<Day>` must be true or false". -/
def dayError? (pt : Bool) (v : DayV) (cap : String) : Option String :=
  if !pt || v != DayV.undef then
    match v with
    | .undef => some (cap ++ " is required")
    | .nullV => some (cap ++ " is required")
    | .nonBool => some (cap ++ " must be true or false")
    | .boolV _ => none
  else none

/-- The entry the loop stores in `dayValues` (present iff the block ran). -/
def dayVal (pt : Bool) (v : DayV) : Option Bool :=
  if !pt || v != DayV.undef then
    match v with
    | .boolV b => some b
    | _ => none
  else none

/-- First failing check of `validateWeeklyTaskInput`, in source order:
title → weekStart → monday … sunday (goalId never fails). -/
def taskError? (tzOff : Int) (inp : TaskInput) (pt : Bool) : Option String :=
  titleError? pt inp.title 80 "Task title can't be empty" "Task title can't exceed 80 characters"
  <|> wsError? tzOff pt inp.weekStart
  <|> dayError? pt inp.monday "Monday"
  <|> dayError? pt inp.tuesday "Tuesday"
  <|> dayError? pt inp.wednesday "Wednesday"
  <|> dayError? pt inp.thursday "Thursday"
  <|> dayError? pt inp.friday "Friday"
  <|> dayError? pt inp.saturday "Saturday"
  <|> dayError? pt inp.sunday "Sunday"

/-- The `data` record `validateWeeklyTaskInput` builds. The source adds
`data.title = title` unconditionally (`title` is a string-or-`null`, never
`undefined`), adds `weekStart`/day flags when computed, and `goalId` when the
input supplied the key (in create mode the full record is rebuilt, with the
same values and every key present). -/
def taskDataOf (tzOff : Int) (inp : TaskInput) (pt : Bool) : TaskData where
  title := some (trimFieldJ inp.title)
  weekStart := wsVal tzOff pt inp.weekStart
  monday := dayVal pt inp.monday
  tuesday := dayVal pt inp.tuesday
  wednesday := dayVal pt inp.wednesday
  thursday := dayVal pt inp.thursday
  friday := dayVal pt inp.friday
  saturday := dayVal pt inp.saturday
  sunday := dayVal pt inp.sunday
  goalId := if !pt || inp.goalId != JStr.undef then some (processGoalId inp.goalId) else none

/-- `validateWeeklyTaskInput` from `src/server/tasks.ts` (`pt` is the
`{partial}` option). -/
def validateWeeklyTaskInput (tzOff : Int) (inp : TaskInput) (pt : Bool) : VRes TaskData :=
  match taskError? tzOff inp pt with
  | some e => .err e
  | none => .ok (taskDataOf tzOff inp pt)

/-! ## Goal (`src/server/goals.ts`) -/

structure GoalInput where
  title : JStr := .undef
  description : JStr := .undef
  horizon : Option String := none
  status : Option String := none
  targetDate : JStr := .undef
  lifeAreaId : JStr := .undef
deriving DecidableEq, Repr

structure GoalData where
  title : Option (Option String)
  description : Option (Option String)
  horizon : Option String
  status : Option String
  targetDate : Option (Option Int)
  lifeAreaId : Option (Option String)
deriving DecidableEq, Repr

/-- First failing check of `validateGoalInput`, in source order:
title → description → horizon → status → targetDate (lifeAreaId never
fails). -/
def goalError? (inp : GoalInput) (pt : Bool) : Option String :=
  titleError? pt inp.title 100 "Goal title can't be empty" "Goal title can't exceed 100 characters"
  <|> optTextError? inp.description 1000 "Description can't be empty when provided"
        "Description can't exceed 1000 characters"
  <|> enumError? pt inp.horizon ["YEAR", "SIX_MONTH", "MONTH", "WEEK"]
        "Horizon must be one of: YEAR, SIX_MONTH, MONTH, WEEK"
  <|> enumError? pt inp.status ["active", "paused", "done"]
        "Status must be one of: active, paused, done"
  <|> optDateError? inp.targetDate "Target date must be in YYYY-MM-DD format"

/-- The `data` record of `validateGoalInput`: `title` is stored
unconditionally; `description`/`targetDate`/`lifeAreaId` become `undefined`
(then removed) exactly when the update is partial and the key was not
supplied; `horizon`/`status` are stored as `horizon || undefined`, i.e.
removed when they kept their `''` initial value. -/
def goalDataOf (inp : GoalInput) (pt : Bool) : GoalData where
  title := some (trimFieldJ inp.title)
  description := if pt && inp.description == JStr.undef then none
    else some (trimFieldJ inp.description)
  horizon := if (!pt || inp.horizon.isSome) && inp.horizon.getD "" != "" then
    some (inp.horizon.getD "") else none
  status := if (!pt || inp.status.isSome) && inp.status.getD "" != "" then
    some (inp.status.getD "") else none
  targetDate := if pt && inp.targetDate == JStr.undef then none
    else some (optDateVal inp.targetDate)
  lifeAreaId := if pt && inp.lifeAreaId == JStr.undef then none
    else some (processGoalId inp.lifeAreaId)

/-- `validateGoalInput` from `src/server/goals.ts`. -/
def validateGoalInput (inp : GoalInput) (pt : Bool) : VRes GoalData :=
  match goalError? inp pt with
  | some e => .err e
  | none => .ok (goalDataOf inp pt)

/-! ## WeeklyFocusTheme (`src/server/focus.ts`) -/

structure FocusInput where
  title : JStr := .undef
  note : JStr := .undef
  weekStart : Option String := none
  linkedGoals : Option LGInput := none
deriving DecidableEq, Repr

structure FocusData where
  title : Option (Option String)
  note : Option (Option String)
  weekStart : Option Int
  linkedGoals : Option (List String)
deriving DecidableEq, Repr

/-- The note block of `validateFocusInput`:
`if (input.note !== undefined) { note = trimField(input.note); if (note && note.length > 400) … }`. -/
def noteError? (v : JStr) : Option String :=
  if v != JStr.undef then
    let n := trimFieldJ v
    if n.isSome && (n.getD "").length > 400 then
      some "Focus note can't exceed 400 characters"
    else none
  else none

/-- First failing check of `validateFocusInput`, in source order:
title → note → weekStart → linkedGoals. -/
def focusError? (tzOff : Int) (inp : FocusInput) (pt : Bool) : Option String :=
  titleError? pt inp.title 60 "Focus title can't be empty" "Focus title can't exceed 60 characters"
  <|> noteError? inp.note
  <|> wsError? tzOff pt inp.weekStart
  <|> (match inp.linkedGoals with
       | none => none
       | some lg => (validateLinkedGoals lg).errMsg)

/-- The `data` record of `validateFocusInput`: `title` stored
unconditionally; `note` present unless a partial update left it unsupplied
(in create mode it is `null` when unsupplied); `weekStart`/`linkedGoals`
present when their blocks ran (create mode always includes `linkedGoals`,
defaulting to `[]`). -/
def focusDataOf (tzOff : Int) (inp : FocusInput) (pt : Bool) : FocusData where
  title := some (trimFieldJ inp.title)
  note := if pt && inp.note == JStr.undef then none else some (trimFieldJ inp.note)
  weekStart := wsVal tzOff pt inp.weekStart
  linkedGoals := match inp.linkedGoals with
    | some lg => some ((validateLinkedGoals lg).getD [])
    | none => if pt then none else some []

/-- `validateFocusInput` from `src/server/focus.ts`. -/
def validateFocusInput (tzOff : Int) (inp : FocusInput) (pt : Bool) : VRes FocusData :=
  match focusError? tzOff inp pt with
  | some e => .err e
  | none => .ok (focusDataOf tzOff inp pt)

/-! ## LifeArea (`src/server/areas.ts`) -/

structure LifeAreaInput where
  name : JStr := .undef
  color : JStr := .undef
  vision : JStr := .undef
  strategy : JStr := .undef
  order : Option Int := none
deriving DecidableEq, Repr

structure LifeAreaData where
  name : Option (Option String)
  color : Option (Option String)
  vision : Option (Option String)
  strategy : Option (Option String)
  order : Option Int
deriving DecidableEq, Repr

/-- `/^#[0-9A-Fa-f]{6}$/` as used for LifeArea.color. -/
def isHexColorStr (s : String) : Bool :=
  match s.data with
  | '#' :: rest => rest.length = 6 && rest.all isHexDigit
  | _ => false

/-- The color block of `validateLifeAreaInput`: trimmed `null` passes,
otherwise the hex regex must match. -/
def colorError? (v : JStr) : Option String :=
  match trimFieldJ v with
  | none => none
  | some c =>
      if !isHexColorStr c then
        some "Color must be exactly 6 hex digits after # (e.g., #FF6B35)"
      else none

/-- First failing check of `validateLifeAreaInput`, in source order:
name → color → vision → strategy. -/
def lifeAreaError? (inp : LifeAreaInput) (isUpdate : Bool) : Option String :=
  titleError? isUpdate inp.name 50 "Name can't be empty" "Life area name can't exceed 50 characters"
  <|> colorError? inp.color
  <|> optTextError? inp.vision 500 "Vision can't be empty when provided"
        "Vision can't exceed 500 characters"
  <|> optTextError? inp.strategy 500 "Strategy can't be empty when provided"
        "Strategy can't exceed 500 characters"

/-- The `data` record of `validateLifeAreaInput`: built once, with every key
present (`name: name!`, `color`, `vision`, `strategy`, `order: input.order`);
there is no partial-mode pruning in this validator. -/
def lifeAreaDataOf (inp : LifeAreaInput) : LifeAreaData where
  name := some (trimFieldJ inp.name)
  color := some (trimFieldJ inp.color)
  vision := some (trimFieldJ inp.vision)
  strategy := some (trimFieldJ inp.strategy)
  order := inp.order

/-- `validateLifeAreaInput` from `src/server/areas.ts` (second argument is
`isUpdate`). -/
def validateLifeAreaInput (inp : LifeAreaInput) (isUpdate : Bool) : VRes LifeAreaData :=
  match lifeAreaError? inp isUpdate with
  | some e => .err e
  | none => .ok (lifeAreaDataOf inp)

/-! ## Signals (`src/server/signals.ts`) -/

/-- A JS `number`: `NaN`, `±Infinity`, or a finite double (a rational). -/
inductive NumV where
  | nan
  | posInf
  | negInf
  | fin (q : ℚ)
deriving DecidableEq, Repr

/-- JS `Math.round` on a finite value: round half toward `+∞`. On doubles of
magnitude below 2^51, `x + 0.5` and the rounding are exact, so the rational
model is faithful on every value the validator range-checks. -/
def jsRound (x : ℚ) : ℚ := ((⌊x + 1/2⌋ : ℤ) : ℚ)

/-- JS `Number.isInteger` on a finite value. -/
def jsIsInteger (q : ℚ) : Bool := q.den == 1

/-- `validateSignalValue` from `src/server/signals.ts`. `value` is `none`
for `undefined`/`null`/non-number arguments (they share one branch in the
source); `type` is `none` for `undefined`. -/
def validateSignalValue (value : Option NumV) (type : Option String) : VRes ℚ :=
  match value with
  | none => .err "Signal value is required"
  | some .nan => .err "Signal value must be a valid number"
  | some .posInf => .err "Signal value must be a valid number"
  | some .negInf => .err "Signal value must be a valid number"
  | some (.fin q) =>
    if type.getD "" = "" then .err "Signal type is required for value validation"
    else if type = some "SLEEP" then
      if q > 14 then .err "Sleep hours can't exceed 14"
      else if q < 0 then
        .err "Sleep hours must be in 0.25-hour increments (7.25, 7.50, 7.75, etc.)"
      else if jsRound (q * 4) ≠ q * 4 then
        .err "Sleep hours must be in 0.25-hour increments (7.25, 7.50, 7.75, etc.)"
      else .ok q
    else if type = some "WELLBEING" then
      if !jsIsInteger q || q < 1 || q > 10 then
        .err "Wellbeing must be a whole number between 1 and 10"
      else .ok q
    else .err "Invalid signal type for value validation"

/-! ## Database error mapping (`src/lib/db-errors.ts`) -/

def genericMsg : String := "Something went wrong. Please try again."

/-- A runtime error value as inspected by `mapDbErrorToUserCopy`:
`notObj` for `null`/`undefined`/non-objects, otherwise the three properties
the function reads (`code`, `meta.target` when it is an array, `constraint`);
a property that is missing or of the wrong type is `none`. -/
inductive DbErr where
  | notObj
  | obj (code : Option String) (metaTarget : Option (List String)) (constraint : Option String)
deriving DecidableEq, Repr

structure ErrorContext where
  title : Option String := none
  weekStart : Option String := none
  lifeAreaName : Option String := none
deriving DecidableEq, Repr

/-- JS truthiness of an optional string (`''` is falsy). -/
def truthyS : Option String → Bool
  | none => false
  | some s => s ≠ ""

/-- `ctx?.field || 'default'`. -/
def ctxField (ctx : Option ErrorContext) (f : ErrorContext → Option String)
    (dflt : String) : String :=
  match ctx with
  | none => dflt
  | some c =>
    match f c with
    | none => dflt
    | some s => if s = "" then dflt else s

/-- `mapUniqueConstraint` from `src/lib/db-errors.ts` (keyed on the joined
target column list). -/
def mapUniqueConstraint (targetColumns : String) (ctx : Option ErrorContext) : String :=
  if targetColumns = "userId,nameNorm" then
    "You already have a life area named '" ++ ctxField ctx (fun c => c.lifeAreaName) "that name" ++ "'"
  else if targetColumns = "userId,weekStart,titleNorm" then
    "You already have a task called '" ++ ctxField ctx (fun c => c.title) "this task" ++
      "' for the week of " ++ ctxField ctx (fun c => c.weekStart) "this week"
  else if targetColumns = "userId,weekStart" then
    "You already set a focus for the week of " ++ ctxField ctx (fun c => c.weekStart) "this week"
  else if targetColumns = "weeklyFocusThemeId,goalId" then
    "Can't link the same goal multiple times"
  else genericMsg

/-- `mapNamedConstraint` from `src/lib/db-errors.ts`. -/
def mapNamedConstraint (constraintName : String) (ctx : Option ErrorContext) : String :=
  if constraintName = "uniq_lifearea_user_namenorm" then
    "You already have a life area named '" ++ ctxField ctx (fun c => c.lifeAreaName) "that name" ++ "'"
  else if constraintName = "uniq_weeklytask_user_week_title" then
    "You already have a task called '" ++ ctxField ctx (fun c => c.title) "this task" ++
      "' for the week of " ++ ctxField ctx (fun c => c.weekStart) "this week"
  else if constraintName = "uniq_focus_user_week" then
    "You already set a focus for the week of " ++ ctxField ctx (fun c => c.weekStart) "this week"
  else if constraintName = "uniq_focus_goal_link" then
    "Can't link the same goal multiple times"
  else genericMsg

/-- `mapCheckConstraint` from `src/lib/db-errors.ts`. -/
def mapCheckConstraint (constraintName : String) : String :=
  if constraintName = "chk_signal_sleep_bounds" then
    "Sleep hours can't exceed 14"
  else if constraintName = "chk_signal_sleep_quarter" then
    "Sleep hours must be in 0.25-hour increments (7.25, 7.50, 7.75, etc.)"
  else if constraintName = "chk_signal_wellbeing_range" then
    "Wellbeing must be a whole number between 1 and 10"
  else if constraintName = "chk_signal_wellbeing_int" then
    "Wellbeing must be a whole number between 1 and 10"
  else genericMsg

/-- `mapDbErrorToUserCopy` from `src/lib/db-errors.ts`. -/
def mapDbErrorToUserCopy (err : DbErr) (ctx : Option ErrorContext) : String :=
  match err with
  | .notObj => genericMsg
  | .obj code metaTarget constraint =>
    if code == some "P2002" && metaTarget.isSome then
      mapUniqueConstraint (String.intercalate "," (metaTarget.getD [])) ctx
    else if code == some "23505" && truthyS constraint then
      mapNamedConstraint (constraint.getD "") ctx
    else if code == some "23514" && truthyS constraint then
      mapCheckConstraint (constraint.getD "")
    else if truthyS constraint then
      let mapped := mapNamedConstraint (constraint.getD "") ctx
      if mapped ≠ genericMsg then mapped else genericMsg
    else genericMsg

/-! ## `weekStartFor` (`src/lib/utils.ts`)

`weekStartFor(date, timezone)` mixes two environments:
* `Intl.DateTimeFormat('en-CA', {timeZone: timezone, …}).format(date)` reads
  the calendar date of the instant in the *requested* zone — modelled by a
  function `localDate : Int → Int` from instants (minutes since epoch) to day
  numbers;
* `new Date()` + `setFullYear(y, month-1, day)` + `setHours(0,0,0,0)`
  constructs the *process-local* midnight of that calendar date, and
  `setDate(getDate() - k)` + `setHours(0,0,0,0)` the process-local midnight
  of the day `k` days earlier — modelled by a function
  `srvMidnight : Int → Int` from day numbers to instants.
`tzDate.getDay()` at the process-local midnight of day `n` is the weekday of
`n` itself, whatever the process zone. -/

/-- `weekStartFor` from `src/lib/utils.ts`, abstracted over the requested
zone's calendar (`localDate`) and the process zone's midnight
(`srvMidnight`); instants are minutes since the epoch. -/
def weekStartFor (localDate : Int → Int) (srvMidnight : Int → Int) (t : Int) : Int :=
  let n := localDate t
  let dayOfWeek := weekdayOfDays n
  let daysToSubtract := if dayOfWeek = 0 then 6 else dayOfWeek - 1
  srvMidnight (n - daysToSubtract)

/-- Calendar day of an instant (minutes) in a fixed-offset zone lying
`offMin` minutes east of UTC (`Etc/GMT+7` is `offMin = -420`). -/
def fixedZoneDate (offMin : Int) (t : Int) : Int :=
  Int.fdiv (t + offMin) 1440

/-- Midnight (in minutes) of a day number for a process running in the
fixed-offset zone `offMin` minutes east of UTC (`0` = a UTC server). -/
def fixedZoneMidnight (offMin : Int) (n : Int) : Int :=
  n * 1440 - offMin

/-! ## Helper lemmas -/

/-- All elements of a linked-goals array are strings that trim to valid
UUIDs (the per-element success condition of the loop). -/
def lgAllValid : List LGItem → Bool
  | [] => true
  | .str s :: rest => isValidUUID (jsTrim s) && lgAllValid rest
  | .nonStr :: _ => false

/-- The trimmed values of a linked-goals array (`""` for non-strings; only
used under `lgAllValid`). -/
def lgTrims : List LGItem → List String
  | [] => []
  | .str s :: rest => jsTrim s :: lgTrims rest
  | .nonStr :: rest => "" :: lgTrims rest

theorem lgLoop_valid_nodup (items : List LGItem) : ∀ acc : List String,
    lgAllValid items = true → (acc ++ lgTrims items).Nodup →
    lgLoop items acc = .ok (acc ++ lgTrims items) := by
  induction items with
  | nil => intro acc _ _; simp [lgLoop, lgTrims]
  | cons i rest ih =>
    cases i with
    | nonStr => intro acc hv _; simp [lgAllValid] at hv
    | str s =>
      intro acc hv hnd
      rw [lgAllValid] at hv
      obtain ⟨hu, hrest⟩ := Bool.and_eq_true_iff.mp hv
      have hmem : jsTrim s ∉ acc := by
        intro hin
        rw [lgTrims, List.nodup_append] at hnd
        exact hnd.2.2 hin (by simp)
      have hc : acc.contains (jsTrim s) = false := by simpa using hmem
      have hrec := ih (acc ++ [jsTrim s]) hrest (by simpa using hnd)
      simp only [lgLoop, hu, hc, Bool.not_true, Bool.false_eq_true, if_false]
      simpa [lgTrims] using hrec

theorem lgLoop_valid_dup (items : List LGItem) : ∀ acc : List String,
    lgAllValid items = true → acc.Nodup → ¬(acc ++ lgTrims items).Nodup →
    lgLoop items acc = .err "Can't link the same goal multiple times" := by
  induction items with
  | nil =>
    intro acc _ hacc hnd
    exact absurd (show (acc ++ lgTrims []).Nodup by simpa [lgTrims] using hacc) hnd
  | cons i rest ih =>
    cases i with
    | nonStr => intro acc hv _ _; simp [lgAllValid] at hv
    | str s =>
      intro acc hv hacc hnd
      rw [lgAllValid] at hv
      obtain ⟨hu, hrest⟩ := Bool.and_eq_true_iff.mp hv
      by_cases hmem : jsTrim s ∈ acc
      · have hc : acc.contains (jsTrim s) = true := by simpa using hmem
        simp only [lgLoop, hu, hc, Bool.not_true, Bool.false_eq_true, if_false, if_true]
      · have hc : acc.contains (jsTrim s) = false := by simpa using hmem
        have hacc2 : (acc ++ [jsTrim s]).Nodup := by
          rw [List.nodup_append]
          exact ⟨hacc, List.nodup_singleton _,
            fun a ha hax => hmem (by simp at hax; exact hax ▸ ha)⟩
        have hnd2 : ¬((acc ++ [jsTrim s]) ++ lgTrims rest).Nodup := by
          intro h
          exact hnd (by simpa [lgTrims] using h)
        have hrec := ih (acc ++ [jsTrim s]) hrest hacc2 hnd2
        simp only [lgLoop, hu, hc, Bool.not_true, Bool.false_eq_true, if_false]
        exact hrec

theorem lgLoop_invalid (items : List LGItem) : ∀ acc : List String,
    lgAllValid items = false →
    lgLoop items acc = .err "All goal IDs must be valid UUIDs"
    ∨ lgLoop items acc = .err "Can't link the same goal multiple times" := by
  induction items with
  | nil => intro acc h; simp [lgAllValid] at h
  | cons i rest ih =>
    cases i with
    | nonStr => intro acc _; left; rfl
    | str s =>
      intro acc hv
      rw [lgAllValid] at hv
      by_cases hu : isValidUUID (jsTrim s) = true
      · have hrest : lgAllValid rest = false := by simpa [hu] using hv
        by_cases hmem : jsTrim s ∈ acc
        · right
          have hc : acc.contains (jsTrim s) = true := by simpa using hmem
          simp only [lgLoop, hu, hc, Bool.not_true, Bool.false_eq_true, if_false, if_true]
        · have hc : acc.contains (jsTrim s) = false := by simpa using hmem
          have hrec := ih (acc ++ [jsTrim s]) hrest
          simp only [lgLoop, hu, hc, Bool.not_true, Bool.false_eq_true, if_false]
          exact hrec
      · left
        have hu' : isValidUUID (jsTrim s) = false := by simpa using hu
        simp only [lgLoop, hu', Bool.not_false, if_true]

/-- The lists of identifiers `src/lib/db-errors.ts` recognizes: unique-index
target column lists, named unique constraints, and check constraints. -/
def recognizedUniqueTargets : List String :=
  ["userId,nameNorm", "userId,weekStart,titleNorm", "userId,weekStart",
   "weeklyFocusThemeId,goalId"]

def recognizedNamedConstraints : List String :=
  ["uniq_lifearea_user_namenorm", "uniq_weeklytask_user_week_title",
   "uniq_focus_user_week", "uniq_focus_goal_link"]

def recognizedCheckConstraints : List String :=
  ["chk_signal_sleep_bounds", "chk_signal_sleep_quarter",
   "chk_signal_wellbeing_range", "chk_signal_wellbeing_int"]

theorem mapUniqueConstraint_unrecognized (t : String) (ctx : Option ErrorContext)
    (h : t ∉ recognizedUniqueTargets) : mapUniqueConstraint t ctx = genericMsg := by
  simp [recognizedUniqueTargets] at h
  obtain ⟨h1, h2, h3, h4⟩ := h
  simp [mapUniqueConstraint, h1, h2, h3, h4]

theorem mapNamedConstraint_unrecognized (t : String) (ctx : Option ErrorContext)
    (h : t ∉ recognizedNamedConstraints) : mapNamedConstraint t ctx = genericMsg := by
  simp [recognizedNamedConstraints] at h
  obtain ⟨h1, h2, h3, h4⟩ := h
  simp [mapNamedConstraint, h1, h2, h3, h4]

theorem mapCheckConstraint_unrecognized (t : String)
    (h : t ∉ recognizedCheckConstraints) : mapCheckConstraint t = genericMsg := by
  simp [recognizedCheckConstraints] at h
  obtain ⟨h1, h2, h3, h4⟩ := h
  simp [mapCheckConstraint, h1, h2, h3, h4]

/-- `Math.round(x) === x` exactly on the integers. -/
theorem jsRound_eq_self_iff (x : ℚ) : jsRound x = x ↔ ∃ n : ℤ, x = (n : ℚ) := by
  constructor
  · intro h
    exact ⟨⌊x + 1/2⌋, h.symm⟩
  · rintro ⟨n, rfl⟩
    unfold jsRound
    rw [add_comm, Int.floor_add_int]
    norm_num

/-- `Math.round(value * 4) === value * 4` exactly on the quarter-integers. -/
theorem quarter_iff (q : ℚ) : (jsRound (q * 4) = q * 4) ↔ ∃ n : ℤ, q = n / 4 := by
  rw [jsRound_eq_self_iff]
  constructor
  · rintro ⟨n, hn⟩
    refine ⟨n, ?_⟩
    field_simp
    linarith
  · rintro ⟨n, rfl⟩
    exact ⟨n, by field_simp⟩

/-- `Number.isInteger` exactly on the integers. -/
theorem jsIsInteger_iff (q : ℚ) : jsIsInteger q = true ↔ ∃ n : ℤ, q = (n : ℚ) := by
  unfold jsIsInteger
  constructor
  · intro h
    rw [beq_iff_eq, Rat.den_eq_one_iff] at h
    exact ⟨q.num, h.symm⟩
  · rintro ⟨n, rfl⟩
    rw [beq_iff_eq]
    exact Rat.den_intCast n

/-- `validateSignalValue` for SLEEP, with the type dispatch evaluated. -/
theorem validateSignalValue_sleep (q : ℚ) :
    validateSignalValue (some (.fin q)) (some "SLEEP")
      = if q > 14 then .err "Sleep hours can't exceed 14"
        else if q < 0 then
          .err "Sleep hours must be in 0.25-hour increments (7.25, 7.50, 7.75, etc.)"
        else if jsRound (q * 4) ≠ q * 4 then
          .err "Sleep hours must be in 0.25-hour increments (7.25, 7.50, 7.75, etc.)"
        else .ok q := by
  rfl

/-- `validateSignalValue` for WELLBEING, with the type dispatch evaluated. -/
theorem validateSignalValue_wellbeing (q : ℚ) :
    validateSignalValue (some (.fin q)) (some "WELLBEING")
      = if !jsIsInteger q || q < 1 || q > 10 then
          .err "Wellbeing must be a whole number between 1 and 10"
        else .ok q := by
  rfl

theorem taskError?_goalId_irrelevant (tzOff : Int) (ti : TaskInput) (pt : Bool) (g : JStr) :
    taskError? tzOff { ti with goalId := g } pt = taskError? tzOff ti pt := by
  cases ti
  rfl

theorem validateWeeklyTaskInput_ok_shape (tzOff : Int) (ti : TaskInput) (pt : Bool)
    (td : TaskData) (h : validateWeeklyTaskInput tzOff ti pt = .ok td) :
    td = taskDataOf tzOff ti pt := by
  unfold validateWeeklyTaskInput at h
  cases he : taskError? tzOff ti pt <;> rw [he] at h
  · injection h with h
    exact h.symm
  · exact absurd h (by simp)

theorem goalError?_lifeAreaId_irrelevant (gi : GoalInput) (pt : Bool) (g : JStr) :
    goalError? { gi with lifeAreaId := g } pt = goalError? gi pt := by
  cases gi
  rfl

theorem validateGoalInput_ok_shape (gi : GoalInput) (pt : Bool)
    (gd : GoalData) (h : validateGoalInput gi pt = .ok gd) :
    gd = goalDataOf gi pt := by
  unfold validateGoalInput at h
  cases he : goalError? gi pt <;> rw [he] at h
  · injection h with h
    exact h.symm
  · exact absurd h (by simp)

theorem validateFocusInput_ok_shape (tzOff : Int) (fi : FocusInput) (pt : Bool)
    (fd : FocusData) (h : validateFocusInput tzOff fi pt = .ok fd) :
    fd = focusDataOf tzOff fi pt := by
  unfold validateFocusInput at h
  cases he : focusError? tzOff fi pt <;> rw [he] at h
  · injection h with h
    exact h.symm
  · exact absurd h (by simp)

theorem validateLifeAreaInput_ok_shape (li : LifeAreaInput) (isUpdate : Bool)
    (ld : LifeAreaData) (h : validateLifeAreaInput li isUpdate = .ok ld) :
    ld = lifeAreaDataOf li := by
  unfold validateLifeAreaInput at h
  cases he : lifeAreaError? li isUpdate <;> rw [he] at h
  · injection h with h
    exact h.symm
  · exact absurd h (by simp)

end Ikigai

namespace Ikigai

/-! ## Claim theorems -/

/-- C1: `validateWeekStart` is specified to accept exactly the real calendar
dates that fall on a Monday (rejecting non-Mondays with
"Week start must be a Monday" and malformed or impossible dates with the
shared format message). The code checks the weekday with `getDay()`, which
consults the process-local timezone at the UTC-midnight parse instant: in any
zone west of UTC — such as `America/Denver` (offset −420 minutes in January),
under which this repository's own test expectations were produced — the real
Monday 2025-01-06 is rejected with the Monday message while the Tuesday
2025-01-07 is accepted. Under a UTC process (offset 0) the function behaves
as specified. -/
theorem C1_validateWeekStart_uses_local_weekday :
    validateWeekStart (-420) (some "2025-01-06") = .err "Week start must be a Monday"
    ∧ weekdayOfDays (daysFromCivil 2025 1 6) = 1
    ∧ validateWeekStart (-420) (some "2025-01-07") = .ok (daysFromCivil 2025 1 7)
    ∧ weekdayOfDays (daysFromCivil 2025 1 7) = 2
    ∧ validateWeekStart 0 (some "  2025-01-06  ") = .ok (daysFromCivil 2025 1 6)
    ∧ validateWeekStart 0 (some "2025-01-07") = .err "Week start must be a Monday"
    ∧ validateWeekStart 0 (some "2025-02-30") = .err "Week start must be in YYYY-MM-DD format"
    ∧ validateWeekStart 0 (some "2025-13-01") = .err "Week start must be in YYYY-MM-DD format"
    ∧ validateWeekStart 0 (some "2025-00-15") = .err "Week start must be in YYYY-MM-DD format"
    ∧ validateWeekStart 0 (some "2025-06-00") = .err "Week start must be in YYYY-MM-DD format"
    ∧ validateWeekStart 0 (some "01/06/2025") = .err "Week start must be in YYYY-MM-DD format" := by
  decide

/-- C2: `weekStartFor` is specified to be idempotent and to land on Monday
local midnight of the requested zone. The code formats the instant in the
requested zone but constructs midnight with `setFullYear`/`setHours` in the
*process-local* zone. With a UTC process (`fixedZoneMidnight 0`) and the
requested zone `Etc/GMT+7` (UTC−7, `fixedZoneDate (-420)`), the instant
2025-09-15T00:00Z (day 20346, a Monday) maps to 2025-09-08T00:00Z, applying
the function again maps to 2025-09-01T00:00Z — not idempotent — and the
first result is not a Monday midnight in the requested zone (its local
calendar day there is a Sunday). -/
theorem C2_weekStartFor_server_midnight_bug :
    daysFromCivil 2025 9 15 = 20346
    ∧ weekdayOfDays 20346 = 1
    ∧ weekStartFor (fixedZoneDate (-420)) (fixedZoneMidnight 0) (20346 * 1440) = 20339 * 1440
    ∧ weekStartFor (fixedZoneDate (-420)) (fixedZoneMidnight 0)
        (weekStartFor (fixedZoneDate (-420)) (fixedZoneMidnight 0) (20346 * 1440))
      ≠ weekStartFor (fixedZoneDate (-420)) (fixedZoneMidnight 0) (20346 * 1440)
    ∧ weekdayOfDays (fixedZoneDate (-420)
        (weekStartFor (fixedZoneDate (-420)) (fixedZoneMidnight 0) (20346 * 1440))) ≠ 1 := by
  decide

/-- C7: `validateGoalInput` in create mode on
`{title: "  Learn Spanish  ", horizon: "YEAR", status: "active"}` returns
`ok` with the title trimmed and every unsupplied optional field present as
`null` (`description`, `targetDate`, `lifeAreaId`), horizon and status passed
through. -/
theorem C7_goal_create_scenario :
    validateGoalInput
        { title := .str "  Learn Spanish  ", horizon := some "YEAR", status := some "active" }
        false
      = .ok { title := some (some "Learn Spanish"), description := some none,
              horizon := some "YEAR", status := some "active",
              targetDate := some none, lifeAreaId := some none } := by
  decide

/-- C8: `mapDbErrorToUserCopy` on the Prisma unique-violation shape
`{code: "P2002", meta: {target: ["userId","nameNorm"]}}` interpolates the
`lifeAreaName` context into
"You already have a life area named 'Health'", and falls back to the
placeholder "that name" when the context (or that field of it) is absent. -/
theorem C8_lifearea_unique_violation_copy :
    mapDbErrorToUserCopy (.obj (some "P2002") (some ["userId", "nameNorm"]) none)
        (some { lifeAreaName := some "Health" })
      = "You already have a life area named 'Health'"
    ∧ mapDbErrorToUserCopy (.obj (some "P2002") (some ["userId", "nameNorm"]) none) none
      = "You already have a life area named 'that name'"
    ∧ mapDbErrorToUserCopy (.obj (some "P2002") (some ["userId", "nameNorm"]) none)
        (some { title := some "T", weekStart := some "2025-01-06" })
      = "You already have a life area named 'that name'" := by
  decide

/-- Concrete inputs for the C3 instantiation: a partial WeeklyTask update
supplying nothing, a partial Focus update supplying only `note`, and a
LifeArea update supplying only `color`. -/
def c3Task : TaskInput := {}

def c3TaskData : TaskData :=
  { title := some none, weekStart := none, monday := none, tuesday := none,
    wednesday := none, thursday := none, friday := none, saturday := none,
    sunday := none, goalId := none }

def c3Focus : FocusInput := { note := .str "some note" }

def c3FocusData : FocusData :=
  { title := some none, note := some (some "some note"), weekStart := none,
    linkedGoals := none }

def c3Area : LifeAreaInput := { color := .str "#FF0000" }

def c3AreaData : LifeAreaData :=
  { name := some none, color := some (some "#FF0000"), vision := some none,
    strategy := some none, order := none }

/-- C3 counterexample: in partial/update mode an unsupplied `title` (resp.
LifeArea `name`, `vision`, `strategy`) is NOT absent from the returned data —
it is present with value `null` (`some none` in the embedding, distinct from
the absent `none`). -/
theorem C3_title_null_counterexample :
    validateFocusInput 0 { note := .str "some note" } true
      = .ok { title := some none, note := some (some "some note"), weekStart := none,
              linkedGoals := none }
    ∧ validateLifeAreaInput { color := .str "#FF0000" } true
      = .ok { name := some none, color := some (some "#FF0000"), vision := some none,
              strategy := some none, order := none }
    ∧ some (none : Option String) ≠ (none : Option (Option String)) := by
  decide

/-- C3 (amended): in partial/update mode every unsupplied field other than
the title is omitted from the output of `validateWeeklyTaskInput` and
`validateFocusInput`, but the `title` key is always present (with value
`null` when unsupplied); `validateLifeAreaInput` performs no pruning at all —
`name`, `color`, `vision`, `strategy` are always present, unsupplied ones as
`null`, and `order` is passed through. -/
theorem C3_partial_update_field_presence (tzOff : Int) (ti : TaskInput) (fi : FocusInput)
    (li : LifeAreaInput) (td : TaskData) (fd : FocusData) (ld : LifeAreaData)
    (ht : validateWeeklyTaskInput tzOff ti true = .ok td)
    (hf : validateFocusInput tzOff fi true = .ok fd)
    (hl : validateLifeAreaInput li true = .ok ld) :
    ((ti.weekStart = none → td.weekStart = none)
      ∧ (ti.monday = .undef → td.monday = none)
      ∧ (ti.tuesday = .undef → td.tuesday = none)
      ∧ (ti.wednesday = .undef → td.wednesday = none)
      ∧ (ti.thursday = .undef → td.thursday = none)
      ∧ (ti.friday = .undef → td.friday = none)
      ∧ (ti.saturday = .undef → td.saturday = none)
      ∧ (ti.sunday = .undef → td.sunday = none)
      ∧ (ti.goalId = .undef → td.goalId = none)
      ∧ td.title = some (trimFieldJ ti.title))
    ∧ ((fi.note = .undef → fd.note = none)
      ∧ (fi.weekStart = none → fd.weekStart = none)
      ∧ (fi.linkedGoals = none → fd.linkedGoals = none)
      ∧ fd.title = some (trimFieldJ fi.title))
    ∧ (ld.name = some (trimFieldJ li.name)
      ∧ ld.color = some (trimFieldJ li.color)
      ∧ ld.vision = some (trimFieldJ li.vision)
      ∧ ld.strategy = some (trimFieldJ li.strategy)
      ∧ ld.order = li.order) := by
  obtain rfl := validateWeeklyTaskInput_ok_shape tzOff ti true td ht
  obtain rfl := validateFocusInput_ok_shape tzOff fi true fd hf
  obtain rfl := validateLifeAreaInput_ok_shape li true ld hl
  refine ⟨⟨?_, ?_, ?_, ?_, ?_, ?_, ?_, ?_, ?_, rfl⟩, ⟨?_, ?_, ?_, rfl⟩,
    rfl, rfl, rfl, rfl, rfl⟩ <;> intro h <;>
    simp [taskDataOf, focusDataOf, wsVal, dayVal, h]

/-- C3 witness: the amended statement instantiated at the concrete partial
updates `c3Task`, `c3Focus`, `c3Area` (where in particular the unsupplied
titles surface as present-`null`). -/
theorem C3_partial_update_witness :
    ((c3Task.weekStart = none → c3TaskData.weekStart = none)
      ∧ (c3Task.monday = .undef → c3TaskData.monday = none)
      ∧ (c3Task.tuesday = .undef → c3TaskData.tuesday = none)
      ∧ (c3Task.wednesday = .undef → c3TaskData.wednesday = none)
      ∧ (c3Task.thursday = .undef → c3TaskData.thursday = none)
      ∧ (c3Task.friday = .undef → c3TaskData.friday = none)
      ∧ (c3Task.saturday = .undef → c3TaskData.saturday = none)
      ∧ (c3Task.sunday = .undef → c3TaskData.sunday = none)
      ∧ (c3Task.goalId = .undef → c3TaskData.goalId = none)
      ∧ c3TaskData.title = some (trimFieldJ c3Task.title))
    ∧ ((c3Focus.note = .undef → c3FocusData.note = none)
      ∧ (c3Focus.weekStart = none → c3FocusData.weekStart = none)
      ∧ (c3Focus.linkedGoals = none → c3FocusData.linkedGoals = none)
      ∧ c3FocusData.title = some (trimFieldJ c3Focus.title))
    ∧ (c3AreaData.name = some (trimFieldJ c3Area.name)
      ∧ c3AreaData.color = some (trimFieldJ c3Area.color)
      ∧ c3AreaData.vision = some (trimFieldJ c3Area.vision)
      ∧ c3AreaData.strategy = some (trimFieldJ c3Area.strategy)
      ∧ c3AreaData.order = c3Area.order) :=
  C3_partial_update_field_presence 0 c3Task c3Focus c3Area c3TaskData c3FocusData c3AreaData
    (by decide) (by decide) (by decide)

/-- C4 counterexample: `validateWeeklyTaskInput` (create mode) accepts a
supplied `goalId` that is not a syntactically valid UUID and passes the
trimmed string through to the output, and `validateGoalInput` does the same
for `lifeAreaId` — contradicting the claim that these fields are accepted
only when they match the UUID grammar. -/
theorem C4_nonuuid_accepted_counterexample :
    validateWeeklyTaskInput 0
        { title := .str "Read", weekStart := some "2025-01-06", monday := .boolV true,
          tuesday := .boolV false, wednesday := .boolV false, thursday := .boolV false,
          friday := .boolV false, saturday := .boolV false, sunday := .boolV false,
          goalId := .str " not-a-uuid " } false
      = .ok { title := some (some "Read"), weekStart := some 20094, monday := some true,
              tuesday := some false, wednesday := some false, thursday := some false,
              friday := some false, saturday := some false, sunday := some false,
              goalId := some (some "not-a-uuid") }
    ∧ isValidUUID "not-a-uuid" = false
    ∧ validateGoalInput
        { title := .str "G", horizon := some "YEAR", status := some "active",
          lifeAreaId := .str "not-a-uuid" } false
      = .ok { title := some (some "G"), description := some none, horizon := some "YEAR",
              status := some "active", targetDate := some none,
              lifeAreaId := some (some "not-a-uuid") } := by
  decide

/-- C4 (amended): `validateWeeklyTaskInput`'s `goalId` and
`validateGoalInput`'s `lifeAreaId` are NOT checked against the UUID grammar:
any supplied string that is non-empty after trimming leaves the validator's
verdict unchanged and, on success, is passed through trimmed, whether or not
`isValidUUID` holds of it. -/
theorem C4_goalId_passthrough (tzOff : Int) (ti : TaskInput) (gi : GoalInput) (pt : Bool)
    (s : String) (hs : jsTrim s ≠ "") :
    ((validateWeeklyTaskInput tzOff { ti with goalId := .str s } pt).isOk
      = (validateWeeklyTaskInput tzOff { ti with goalId := .undef } pt).isOk)
    ∧ (∀ td, validateWeeklyTaskInput tzOff { ti with goalId := .str s } pt = .ok td →
        td.goalId = some (some (jsTrim s)))
    ∧ ((validateGoalInput { gi with lifeAreaId := .str s } pt).isOk
      = (validateGoalInput { gi with lifeAreaId := .undef } pt).isOk)
    ∧ (∀ gd, validateGoalInput { gi with lifeAreaId := .str s } pt = .ok gd →
        gd.lifeAreaId = some (some (jsTrim s))) := by
  refine ⟨?_, ?_, ?_, ?_⟩
  · unfold validateWeeklyTaskInput
    rw [taskError?_goalId_irrelevant tzOff ti pt (.str s),
      taskError?_goalId_irrelevant tzOff ti pt .undef]
    cases taskError? tzOff ti pt <;> rfl
  · intro td h
    obtain rfl := validateWeeklyTaskInput_ok_shape _ _ _ _ h
    cases ti
    simp [taskDataOf, processGoalId, hs]
  · unfold validateGoalInput
    rw [goalError?_lifeAreaId_irrelevant gi pt (.str s),
      goalError?_lifeAreaId_irrelevant gi pt .undef]
    cases goalError? gi pt <;> rfl
  · intro gd h
    obtain rfl := validateGoalInput_ok_shape _ _ _ h
    cases gi
    simp [goalDataOf, processGoalId, hs]

/-- C4 witness: the amended statement at the non-UUID string `"not-a-uuid"`
on otherwise-empty partial updates. -/
theorem C4_goalId_passthrough_witness :
    ((validateWeeklyTaskInput 0 { goalId := .str "not-a-uuid" } true).isOk
      = (validateWeeklyTaskInput 0 { goalId := .undef } true).isOk)
    ∧ (∀ td, validateWeeklyTaskInput 0 { goalId := .str "not-a-uuid" } true = .ok td →
        td.goalId = some (some (jsTrim "not-a-uuid")))
    ∧ ((validateGoalInput { lifeAreaId := .str "not-a-uuid" } true).isOk
      = (validateGoalInput { lifeAreaId := .undef } true).isOk)
    ∧ (∀ gd, validateGoalInput { lifeAreaId := .str "not-a-uuid" } true = .ok gd →
        gd.lifeAreaId = some (some (jsTrim "not-a-uuid"))) :=
  C4_goalId_passthrough 0 {} {} true "not-a-uuid" (by decide)

/-- C10: supplying `goalId` (WeeklyTask) or `lifeAreaId` (Goal) never changes
whether validation succeeds; on success, a supplied `null`, empty or
whitespace-only value appears normalized to `null`, and any other supplied
string appears trimmed. -/
theorem C10_goalId_lifeAreaId_never_fail (tzOff : Int) (ti : TaskInput) (gi : GoalInput)
    (pt : Bool) (g g' : JStr) :
    ((validateWeeklyTaskInput tzOff { ti with goalId := g } pt).isOk
      = (validateWeeklyTaskInput tzOff { ti with goalId := g' } pt).isOk)
    ∧ ((validateGoalInput { gi with lifeAreaId := g } pt).isOk
      = (validateGoalInput { gi with lifeAreaId := g' } pt).isOk)
    ∧ (∀ td, validateWeeklyTaskInput tzOff ti pt = .ok td →
        (ti.goalId = .nullV → td.goalId = some none)
        ∧ (∀ s, ti.goalId = .str s → jsTrim s = "" → td.goalId = some none)
        ∧ (∀ s, ti.goalId = .str s → jsTrim s ≠ "" → td.goalId = some (some (jsTrim s))))
    ∧ (∀ gd, validateGoalInput gi pt = .ok gd →
        (gi.lifeAreaId = .nullV → gd.lifeAreaId = some none)
        ∧ (∀ s, gi.lifeAreaId = .str s → jsTrim s = "" → gd.lifeAreaId = some none)
        ∧ (∀ s, gi.lifeAreaId = .str s → jsTrim s ≠ "" →
            gd.lifeAreaId = some (some (jsTrim s)))) := by
  refine ⟨?_, ?_, ?_, ?_⟩
  · unfold validateWeeklyTaskInput
    rw [taskError?_goalId_irrelevant tzOff ti pt g, taskError?_goalId_irrelevant tzOff ti pt g']
    cases taskError? tzOff ti pt <;> rfl
  · unfold validateGoalInput
    rw [goalError?_lifeAreaId_irrelevant gi pt g, goalError?_lifeAreaId_irrelevant gi pt g']
    cases goalError? gi pt <;> rfl
  · intro td h
    obtain rfl := validateWeeklyTaskInput_ok_shape _ _ _ _ h
    exact ⟨fun hn => by simp [taskDataOf, processGoalId, hn],
      fun s hs he => by simp [taskDataOf, processGoalId, hs, he],
      fun s hs he => by simp [taskDataOf, processGoalId, hs, he]⟩
  · intro gd h
    obtain rfl := validateGoalInput_ok_shape _ _ _ h
    exact ⟨fun hn => by simp [goalDataOf, processGoalId, hn],
      fun s hs he => by simp [goalDataOf, processGoalId, hs, he],
      fun s hs he => by simp [goalDataOf, processGoalId, hs, he]⟩

/-- C5: `validateSignalValue` on finite values accepts for SLEEP exactly the
quarter-aligned numbers in `[0, 14]` (returning the value); any value above
14 gets the upper-bound message (the bound is checked before the lower
bound and the step check, so 15 reports it); negatives and non-quarter
values in range get the single increment message. For WELLBEING exactly the
integers 1..10 are accepted; everything else — 0, 11, non-integers — gets
the one combined message. The named boundary values 0, 0.25, 14, 15, 7.3,
1, 10, 0, 11, 5.5 are evaluated explicitly. -/
theorem C5_validateSignalValue_bounds (q : ℚ) :
    ((validateSignalValue (some (.fin q)) (some "SLEEP")).isOk = true ↔
      0 ≤ q ∧ q ≤ 14 ∧ ∃ n : ℤ, q = n / 4)
    ∧ (q > 14 → validateSignalValue (some (.fin q)) (some "SLEEP")
        = .err "Sleep hours can't exceed 14")
    ∧ (q < 0 → validateSignalValue (some (.fin q)) (some "SLEEP")
        = .err "Sleep hours must be in 0.25-hour increments (7.25, 7.50, 7.75, etc.)")
    ∧ (0 ≤ q → q ≤ 14 → (¬∃ n : ℤ, q = n / 4) →
        validateSignalValue (some (.fin q)) (some "SLEEP")
        = .err "Sleep hours must be in 0.25-hour increments (7.25, 7.50, 7.75, etc.)")
    ∧ ((validateSignalValue (some (.fin q)) (some "WELLBEING")).isOk = true ↔
        ∃ n : ℤ, q = (n : ℚ) ∧ 1 ≤ n ∧ n ≤ 10)
    ∧ (((¬∃ n : ℤ, q = (n : ℚ)) ∨ q < 1 ∨ q > 10) →
        validateSignalValue (some (.fin q)) (some "WELLBEING")
        = .err "Wellbeing must be a whole number between 1 and 10")
    ∧ validateSignalValue (some (.fin 0)) (some "SLEEP") = .ok 0
    ∧ validateSignalValue (some (.fin (1/4))) (some "SLEEP") = .ok (1/4)
    ∧ validateSignalValue (some (.fin 14)) (some "SLEEP") = .ok 14
    ∧ validateSignalValue (some (.fin 15)) (some "SLEEP")
        = .err "Sleep hours can't exceed 14"
    ∧ validateSignalValue (some (.fin (73/10))) (some "SLEEP")
        = .err "Sleep hours must be in 0.25-hour increments (7.25, 7.50, 7.75, etc.)"
    ∧ validateSignalValue (some (.fin 1)) (some "WELLBEING") = .ok 1
    ∧ validateSignalValue (some (.fin 10)) (some "WELLBEING") = .ok 10
    ∧ validateSignalValue (some (.fin 0)) (some "WELLBEING")
        = .err "Wellbeing must be a whole number between 1 and 10"
    ∧ validateSignalValue (some (.fin 11)) (some "WELLBEING")
        = .err "Wellbeing must be a whole number between 1 and 10"
    ∧ validateSignalValue (some (.fin (Rat.divInt 11 2))) (some "WELLBEING")
        = .err "Wellbeing must be a whole number between 1 and 10" := by
  refine ⟨?_, ?_, ?_, ?_, ?_, ?_, ?_, ?_, ?_, ?_, ?_, ?_, ?_, ?_, ?_, ?_⟩
  · rw [validateSignalValue_sleep]
    split_ifs with h1 h2 h3
    · simp only [VRes.isOk, Bool.false_eq_true, false_iff]
      rintro ⟨-, h14, -⟩
      linarith
    · simp only [VRes.isOk, Bool.false_eq_true, false_iff]
      rintro ⟨h0, -, -⟩
      linarith
    · simp only [VRes.isOk, Bool.false_eq_true, false_iff]
      rintro ⟨-, -, n, rfl⟩
      exact h3 ((quarter_iff _).mpr ⟨n, rfl⟩)
    · simp only [VRes.isOk, true_iff]
      push_neg at h1 h2 h3
      exact ⟨h2, h1, (quarter_iff q).mp h3⟩
  · intro h
    rw [validateSignalValue_sleep, if_pos h]
  · intro h
    rw [validateSignalValue_sleep, if_neg (by linarith : ¬ q > 14), if_pos h]
  · intro h0 h14 hq
    have hne : jsRound (q * 4) ≠ q * 4 := fun hr => hq ((quarter_iff q).mp hr)
    rw [validateSignalValue_sleep, if_neg (by linarith : ¬ q > 14),
      if_neg (by linarith : ¬ q < 0), if_pos hne]
  · rw [validateSignalValue_wellbeing]
    by_cases hcond : (!jsIsInteger q || q < 1 || q > 10) = true
    · rw [if_pos hcond]
      simp only [VRes.isOk, Bool.false_eq_true, false_iff]
      rintro ⟨n, rfl, h1n, h10n⟩
      have hint : jsIsInteger (n : ℚ) = true := (jsIsInteger_iff _).mpr ⟨n, rfl⟩
      simp only [hint, Bool.not_true, Bool.false_or, Bool.or_eq_true, decide_eq_true_eq] at hcond
      rcases hcond with h | h
      · have : (1 : ℚ) ≤ n := by exact_mod_cast h1n
        linarith
      · have : (n : ℚ) ≤ 10 := by exact_mod_cast h10n
        linarith
    · rw [if_neg hcond]
      simp only [VRes.isOk, true_iff]
      simp only [Bool.or_eq_true, Bool.not_eq_true', decide_eq_true_eq, not_or] at hcond
      obtain ⟨⟨hint, h1⟩, h10⟩ := hcond
      obtain ⟨n, rfl⟩ := (jsIsInteger_iff q).mp (by simpa using hint)
      refine ⟨n, rfl, ?_, ?_⟩
      · exact_mod_cast not_lt.mp h1
      · exact_mod_cast not_lt.mp h10
  · intro h
    rw [validateSignalValue_wellbeing, if_pos ?_]
    rcases h with h | h | h
    · have : jsIsInteger q = false := by
        rcases hb : jsIsInteger q with _ | _
        · rfl
        · exact absurd ((jsIsInteger_iff q).mp hb) h
      simp [this]
    · simp [h]
    · simp [h]
  · simp +decide [validateSignalValue, jsRound]
    norm_num
  · simp +decide [validateSignalValue, jsRound]
    norm_num
  · simp +decide [validateSignalValue, jsRound]
    norm_num
  · decide
  · simp +decide [validateSignalValue, jsRound]
    norm_num
  · decide
  · decide
  · decide
  · decide
  · decide

/-- Fixed valid version-4 UUID used in concrete linked-goals inputs. -/
def uuidA : String := "a1b2c3d4-e5f6-4890-abcd-ef1234567890"

/-- C6 counterexample: an array of length 3 (within the allowed length)
containing a non-string element does NOT always yield
"All goal IDs must be valid UUIDs": when a duplicate of an earlier valid
element is scanned first, the duplicate message is reported instead. -/
theorem C6_message_priority_counterexample :
    validateLinkedGoals (.arr [.str uuidA, .str uuidA, .nonStr])
      = .err "Can't link the same goal multiple times"
    ∧ ("Can't link the same goal multiple times" : String) ≠ "All goal IDs must be valid UUIDs"
    ∧ isValidUUID (jsTrim uuidA) = true := by
  decide

/-- C6 (amended): `validateLinkedGoals` rejects truthy non-arrays; an array
longer than 3 yields the max message; an allowed-length array of all-valid
distinct elements succeeds with the trimmed ids in input order; an
allowed-length all-valid array with a duplicate (by trimmed value) yields the
duplicate message; and an array containing a non-string or invalid-UUID
element always fails, with the message determined by the first error
encountered scanning left to right (UUID, max-length, or duplicate). -/
theorem C6_validateLinkedGoals_cases (items : List LGItem) :
    validateLinkedGoals .falsy = .ok []
    ∧ validateLinkedGoals .notArr = .err "All goal IDs must be valid UUIDs"
    ∧ (items.length > 3 →
        validateLinkedGoals (.arr items) = .err "Can't link more than 3 goals")
    ∧ (items.length ≤ 3 → lgAllValid items = true → (lgTrims items).Nodup →
        validateLinkedGoals (.arr items) = .ok (lgTrims items))
    ∧ (items.length ≤ 3 → lgAllValid items = true → ¬(lgTrims items).Nodup →
        validateLinkedGoals (.arr items) = .err "Can't link the same goal multiple times")
    ∧ (lgAllValid items = false →
        validateLinkedGoals (.arr items) = .err "All goal IDs must be valid UUIDs"
        ∨ validateLinkedGoals (.arr items) = .err "Can't link more than 3 goals"
        ∨ validateLinkedGoals (.arr items) = .err "Can't link the same goal multiple times") := by
  refine ⟨rfl, rfl, ?_, ?_, ?_, ?_⟩
  · intro h
    simp [validateLinkedGoals, h]
  · intro hlen hv hnd
    have hrec := lgLoop_valid_nodup items [] hv (by simpa using hnd)
    simp only [validateLinkedGoals, if_neg (by omega : ¬ items.length > 3)]
    simpa using hrec
  · intro hlen hv hnd
    have hrec := lgLoop_valid_dup items [] hv List.nodup_nil (by simpa using hnd)
    simp only [validateLinkedGoals, if_neg (by omega : ¬ items.length > 3)]
    exact hrec
  · intro hv
    by_cases hlen : items.length > 3
    · right; left
      simp [validateLinkedGoals, hlen]
    · rcases lgLoop_invalid items [] hv with h | h
      · left
        simp only [validateLinkedGoals, if_neg hlen]
        exact h
      · right; right
        simp only [validateLinkedGoals, if_neg hlen]
        exact h

/-- C9: `mapDbErrorToUserCopy` returns the generic fallback on every
`null`/`undefined`/non-object input, and on every error object whose
identifiers are outside the recognized shapes: not a `P2002` with an array
target joining to one of the four known unique-index column lists, not a
truthy constraint name among the four known unique constraints (reachable
with code `23505` or through the constraint-name fallback), and not a
`23514` with one of the four known check-constraint names. -/
theorem C9_unrecognized_errors_generic (code : Option String) (mt : Option (List String))
    (con : Option String) (ctx : Option ErrorContext) :
    mapDbErrorToUserCopy .notObj ctx = genericMsg
    ∧ (¬(code = some "P2002" ∧ mt.isSome = true
          ∧ String.intercalate "," (mt.getD []) ∈ recognizedUniqueTargets) →
       ¬(truthyS con = true ∧ con.getD "" ∈ recognizedNamedConstraints) →
       ¬(code = some "23514" ∧ truthyS con = true
          ∧ con.getD "" ∈ recognizedCheckConstraints) →
       mapDbErrorToUserCopy (.obj code mt con) ctx = genericMsg) := by
  refine ⟨rfl, ?_⟩
  intro h1 h2 h3
  simp only [mapDbErrorToUserCopy]
  by_cases hA : (code == some "P2002" && mt.isSome) = true
  · rw [if_pos hA]
    obtain ⟨hc, hm⟩ := Bool.and_eq_true_iff.mp hA
    exact mapUniqueConstraint_unrecognized _ _
      (fun hmem => h1 ⟨by simpa using hc, hm, hmem⟩)
  · rw [if_neg hA]
    by_cases hB : (code == some "23505" && truthyS con) = true
    · rw [if_pos hB]
      obtain ⟨hc, ht⟩ := Bool.and_eq_true_iff.mp hB
      exact mapNamedConstraint_unrecognized _ _ (fun hmem => h2 ⟨ht, hmem⟩)
    · rw [if_neg hB]
      by_cases hC : (code == some "23514" && truthyS con) = true
      · rw [if_pos hC]
        obtain ⟨hc, ht⟩ := Bool.and_eq_true_iff.mp hC
        exact mapCheckConstraint_unrecognized _
          (fun hmem => h3 ⟨by simpa using hc, ht, hmem⟩)
      · rw [if_neg hC]
        by_cases hD : truthyS con = true
        · rw [if_pos hD]
          have hgen : mapNamedConstraint (con.getD "") ctx = genericMsg :=
            mapNamedConstraint_unrecognized _ _ (fun hmem => h2 ⟨hD, hmem⟩)
          simp [hgen]
        · rw [if_neg hD]

end Ikigai
